import Mathlib

/-!
Verification of the subscription-management bot in `src/bot.py` against its
natural-language specification. The Python code is shallowly embedded:
calendar dates are Gregorian triples converted to day numbers, `datetime`
values are a day number plus seconds-within-day, money amounts are exact
rationals, text is manipulated as character lists, and each handler of
interest becomes an executable Lean function mirroring the source line by
line.  Line numbers in the doc comments refer to `src/bot.py`.
-/

namespace VendasDigitais

/-! ### Calendar arithmetic

`datetime.date` / `datetime.strptime` arithmetic from the Python standard
library, embedded via the standard civil-calendar day numbering (days since
the Unix epoch 1970-01-01).  Years are restricted to the common era
(`1 ≤ year ≤ 9999`), exactly the range Python's `datetime` supports. -/

/-- Gregorian leap-year rule, as used by `datetime`. -/
def isLeap (y : Nat) : Bool :=
  y % 4 == 0 && (y % 100 != 0 || y % 400 == 0)

/-- Number of days in month `m` of year `y` (months are 1-based). -/
def daysInMonth (y : Nat) (m : Nat) : Nat :=
  if m = 2 then (if isLeap y then 29 else 28)
  else if m = 4 ∨ m = 6 ∨ m = 9 ∨ m = 11 then 30
  else 31

/-- A calendar date (no time component), as produced by
`datetime.strptime(s, '%Y-%m-%d')` in the source. -/
structure Date where
  year : Nat
  month : Nat
  day : Nat
deriving DecidableEq, Repr

/-- A date is valid when the month and the day are in range, matching the
validation `datetime.strptime` performs. -/
def Date.validDate (d : Date) : Bool :=
  1 ≤ d.year && d.year ≤ 9999 && 1 ≤ d.month && d.month ≤ 12 &&
    1 ≤ d.day && d.day ≤ daysInMonth d.year d.month

/-- Day number of a civil date: days since 1970-01-01 (negative before).
Standard civil-from-days algorithm, valid for `1 ≤ y`, `1 ≤ m ≤ 12`,
`1 ≤ d`. -/
def daysFromCivil (y m d : Nat) : Int :=
  let y1 : Nat := if m ≤ 2 then y - 1 else y
  let era : Nat := y1 / 400
  let yoe : Nat := y1 % 400
  let mp : Nat := if 2 < m then m - 3 else m + 9
  let doy : Nat := (153 * mp + 2) / 5 + d - 1
  let doe : Nat := yoe * 365 + yoe / 4 - yoe / 100 + doy
  (era : Int) * 146097 + (doe : Int) - 719468

/-- Day number of a `Date`. -/
def Date.toDays (d : Date) : Int :=
  daysFromCivil d.year d.month d.day

/-- Inverse of `daysFromCivil`: the civil date of a day number
(valid for dates in the common era). -/
def civilFromDays (z : Int) : Date :=
  let z' : Nat := (z + 719468).toNat
  let era : Nat := z' / 146097
  let doe : Nat := z' % 146097
  let yoe : Nat := (doe - doe / 1460 + doe / 36524 - doe / 146096) / 365
  let y : Nat := yoe + era * 400
  let doy : Nat := doe - (365 * yoe + yoe / 4 - yoe / 100)
  let mp : Nat := (5 * doy + 2) / 153
  let d : Nat := doy - (153 * mp + 2) / 5 + 1
  let m : Nat := if mp < 10 then mp + 3 else mp - 9
  ⟨if m ≤ 2 then y + 1 else y, m, d⟩

/-- `date + timedelta(days = n)` on day numbers. -/
def Date.addDays (d : Date) (n : Int) : Date :=
  civilFromDays (d.toDays + n)

/-- A `datetime.datetime` value: a day number plus the seconds elapsed
within that day.  A well-formed value has `sec < 86400`; theorems take this
as a hypothesis.  `datetime.strptime(s, '%Y-%m-%d')` yields `sec = 0`
(midnight); `agora_br()` / `datetime.now()` yield the current wall clock
with an arbitrary `sec`. -/
structure PyDateTime where
  day : Int
  sec : Nat
deriving DecidableEq, Repr

/-- Total seconds of a `datetime`, the quantity Python compares and
subtracts when two `datetime` values meet `<` or `-`. -/
def PyDateTime.secs (t : PyDateTime) : Int :=
  t.day * 86400 + t.sec

/-! ### C1 — `processar_renovacao_cliente` (lines 2086–2111)

```
vencimento_atual = datetime.strptime(cliente['vencimento'], '%Y-%m-%d')
if vencimento_atual < agora_br().replace(tzinfo=None):
    nova_data = agora_br().replace(tzinfo=None) + timedelta(days=dias)
else:
    nova_data = vencimento_atual + timedelta(days=dias)
sucesso = db.atualizar_cliente(cliente_id, 'vencimento',
                               nova_data.strftime('%Y-%m-%d'))
```
-/

/-- The renewal computation above.  `venc_day` is the day number of the
stored due date (a midnight `datetime`), `now` the current wall clock,
`dias` the renewal length.  The result is the day number of the date
string written back to the repository (`strftime('%Y-%m-%d')` takes the
date part, the floor of the `datetime` in days). -/
def processar_renovacao_nova_data (venc_day : Int) (now : PyDateTime)
    (dias : Int) : Int :=
  let venc_secs : Int := venc_day * 86400
  let nova_secs : Int :=
    if venc_secs < now.secs then now.secs + dias * 86400
    else venc_secs + dias * 86400
  Int.fdiv nova_secs 86400

/-! ### C5 — `dias_restantes` in `enviar_template_cliente`
(lines 1554–1555)

```
hoje = datetime.now()
dias_restantes = (vencimento - hoje).days if vencimento > hoje else 0
```
`vencimento` is the client's due date at midnight; `timedelta.days` is the
floor of the difference measured in whole days. -/

/-- The days-remaining value substituted for the `dias_restantes`
placeholder. -/
def dias_restantes (venc_day : Int) (hoje : PyDateTime) : Int :=
  let venc_secs : Int := venc_day * 86400
  if hoje.secs < venc_secs then Int.fdiv (venc_secs - hoje.secs) 86400
  else 0

/-! ### C4 — revenue figure of `gerar_relatorio_inline` (line 1142) and
`relatorio` (line 2352) -/

/-- A client record as read back from the repository
(`db.listar_clientes`).  `valor` is a float in the source, modelled as an
exact rational; the `vencimento` column always holds an ISO date, modelled
as a `Date`. -/
structure Cliente where
  nome : String
  telefone : String
  pacote : String
  valor : Rat
  vencimento : Date
  servidor : String
deriving DecidableEq, Repr

/-- `receita_total = sum(float(c['valor']) for c in clientes)`: the
"Receita mensal" figure both report operations display is the plain sum
over every listed active client — the source applies no date filter. -/
def receita_total (clientes : List Cliente) : Rat :=
  (clientes.map (·.valor)).sum

/-- Whether a client's due date falls within the inclusive
`[first day, last day]` bounds of `today`'s calendar month. -/
def inCurrentMonth (today : Date) (c : Cliente) : Bool :=
  (Date.mk today.year today.month 1).toDays ≤ c.vencimento.toDays &&
    c.vencimento.toDays ≤
      (Date.mk today.year today.month
        (daysInMonth today.year today.month)).toDays

/-- Modelled from the spec (§4.6): `projected = Σ price` over exactly the
clients whose `due_date` falls within the current month's `[start, end]`
bounds.  Stated only to compare the spec's claim against the code's
`receita_total`. -/
def projected_spec (clientes : List Cliente) (today : Date) : Rat :=
  ((clientes.filter (inCurrentMonth today)).map (·.valor)).sum

/-- Sum of prices of the clients whose due date lies outside the current
month. -/
def fora_do_mes (clientes : List Cliente) (today : Date) : Rat :=
  ((clientes.filter (fun c => !inCurrentMonth today c)).map (·.valor)).sum

/-! ### C2 — dispatch outcome classification
(`enviar_cobranca_cliente`, lines 1280–1382, and
`enviar_template_cliente`, lines 1606–1710)

Both functions run
`await asyncio.wait_for(ws.enviar_mensagem(telefone, msg), timeout=15.0)`
inside `try/except asyncio.TimeoutError/except Exception` and write one
delivery-log row per branch via `db.registrar_log_mensagem`, itself
guarded by a `try/except` (a failing log write is only warned about). -/

/-- Result of the bounded transport call: the service confirms delivery,
reports non-delivery (falsy return), exceeds the 15-second bound
(`asyncio.TimeoutError`), or raises any other exception. -/
inductive TransportOutcome where
  | confirmed
  | notConfirmed
  | timedOut
  | raised (msg : String)
deriving DecidableEq, Repr

/-- Delivery-log status values written by the source:
`'enviado' | 'falha' | 'timeout' | 'erro'`. -/
inductive LogStatus where
  | enviado
  | falha
  | timeout
  | erro
deriving DecidableEq, Repr

/-- One `registrar_log_mensagem` row. -/
structure LogEntry where
  cliente_id : Nat
  tipo : String
  telefone : String
  status : LogStatus
  conteudo : String
  template_id : Option Nat
deriving DecidableEq, Repr

/-- What a dispatch attempt leaves behind: the log row (none when the
guarded log write itself failed) and whether the handler ran to its final
reply instead of propagating an exception. -/
structure DispatchResult where
  log : Option LogEntry
  completed : Bool
deriving DecidableEq, Repr

/-- The `timeout=15.0` bound passed to `asyncio.wait_for` in both dispatch
functions (lines 1289 and 1614). -/
def envio_timeout_segundos : Nat := 15

/-- The status each transport outcome is classified into, per the four
branches common to both dispatch functions. -/
def classificar_envio : TransportOutcome → LogStatus
  | .confirmed => .enviado
  | .notConfirmed => .falha
  | .timedOut => .timeout
  | .raised _ => .erro

/-- `enviar_cobranca_cliente`, dispatch section (lines 1280–1382): each
branch logs its status and builds a reply; no branch re-raises.  `log_ok`
is whether the guarded `registrar_log_mensagem` call itself succeeded. -/
def enviar_cobranca_envio (cliente_id : Nat)
    (tipo_template telefone msg : String) (transporte : TransportOutcome)
    (log_ok : Bool) : DispatchResult :=
  match transporte with
  | .confirmed =>
      { log := if log_ok then
          some ⟨cliente_id, tipo_template, telefone, .enviado,
            msg.take 500, none⟩ else none
        completed := true }
  | .notConfirmed =>
      { log := if log_ok then
          some ⟨cliente_id, tipo_template, telefone, .falha,
            "Erro: WhatsApp não confirmou o envio", none⟩ else none
        completed := true }
  | .timedOut =>
      { log := if log_ok then
          some ⟨cliente_id, tipo_template, telefone, .timeout,
            "Erro: Timeout após 15 segundos", none⟩ else none
        completed := true }
  | .raised e =>
      { log := if log_ok then
          some ⟨cliente_id, tipo_template, telefone, .erro,
            "Erro: " ++ e.take 200, none⟩ else none
        completed := true }

/-- `enviar_template_cliente`, dispatch section (lines 1606–1710): same
four branches; the log row carries `tipo = "template_" + nome` and the
template's id. -/
def enviar_template_envio (cliente_id : Nat)
    (template_nome : String) (template_id : Nat)
    (telefone msg : String) (transporte : TransportOutcome)
    (log_ok : Bool) : DispatchResult :=
  match transporte with
  | .confirmed =>
      { log := if log_ok then
          some ⟨cliente_id, "template_" ++ template_nome, telefone, .enviado,
            msg.take 500, some template_id⟩ else none
        completed := true }
  | .notConfirmed =>
      { log := if log_ok then
          some ⟨cliente_id, "template_" ++ template_nome, telefone, .falha,
            "Erro: WhatsApp não confirmou o envio", some template_id⟩
          else none
        completed := true }
  | .timedOut =>
      { log := if log_ok then
          some ⟨cliente_id, "template_" ++ template_nome, telefone, .timeout,
            "Erro: Timeout após 15 segundos", some template_id⟩ else none
        completed := true }
  | .raised e =>
      { log := if log_ok then
          some ⟨cliente_id, "template_" ++ template_nome, telefone, .erro,
            "Erro: " ++ e.take 200, some template_id⟩ else none
        completed := true }

/-! ### C3 — template rendering
(`enviar_template_cliente` lines 1551–1604,
`enviar_cobranca_cliente` lines 1265–1278) -/

/-- One lexical piece of a Python format string: literal text or a
`\x7bname\x7d` placeholder. -/
inductive Chunk where
  | lit (s : String)
  | ph (name : String)
deriving DecidableEq, Repr

/-- `str.format(**env)` on a parsed format string: every placeholder must
resolve in `env` or the whole call raises `KeyError` (`none`); Python
never emits partially substituted text. -/
def pyFormat (env : List (String × String)) : List Chunk → Option String
  | [] => some ""
  | .lit s :: rest => (pyFormat env rest).map (s ++ ·)
  | .ph n :: rest =>
      match env.find? (fun p => p.1 == n) with
      | some p => (pyFormat env rest).map (p.2 ++ ·)
      | none => none

/-- The literal text of a template, placeholders printed back verbatim
(the `\x7bidentifier\x7d` syntax). -/
def conteudo_raw : List Chunk → String
  | [] => ""
  | .lit s :: rest => s ++ conteudo_raw rest
  | .ph n :: rest => "\x7b" ++ n ++ "\x7d" ++ conteudo_raw rest

/-- Left-pad a numeral to two digits (`%d` / `%m` of `strftime`). -/
def pad2 (n : Nat) : String :=
  if n < 10 then "0" ++ toString n else toString n

/-- Left-pad a year to four digits (`%Y` of `strftime`). -/
def pad4 (n : Nat) : String :=
  if n < 10 then "000" ++ toString n
  else if n < 100 then "00" ++ toString n
  else if n < 1000 then "0" ++ toString n
  else toString n

/-- `strftime('%d/%m/%Y')`. -/
def format_ddmmyyyy (d : Date) : String :=
  pad2 d.day ++ "/" ++ pad2 d.month ++ "/" ++ pad4 d.year

/-- The client fields the render code reads.  `valor_fmt` stands for the
already-formatted price (the `:.2f` float formatting is a Python builtin,
outside the embedding); `vencimento` is the parsed due date of line 1542,
displayed via `strftime('%d/%m/%Y')` (line 1543). -/
structure ClienteRender where
  nome : String
  telefone : String
  pacote : String
  valor_fmt : String
  vencimento : Date
  servidor : String
deriving DecidableEq, Repr

/-- System configuration values read via `db.get_configuracoes()` with
their fallback defaults already applied (lines 1571–1577). -/
structure Configs where
  empresa : String
  suporte : String
  pix_chave : String
  pix_banco : String
  pix_titular : String
deriving DecidableEq, Repr

/-- The six-key dictionary of the basic-variable `format` calls
(lines 1267–1274 and 1590–1597). -/
def dados_basicos (c : ClienteRender) : List (String × String) :=
  [("nome", c.nome), ("telefone", c.telefone), ("pacote", c.pacote),
   ("valor", c.valor_fmt), ("vencimento", format_ddmmyyyy c.vencimento),
   ("servidor", c.servidor)]

/-- The full `dados_template` dictionary of lines 1561–1582: basic client
data, company/PIX configuration, and the computed `dias_restantes` and
`novo_vencimento` (due date + 30 days) values. -/
def dados_template (c : ClienteRender) (cfg : Configs) (hoje : PyDateTime) :
    List (String × String) :=
  [("nome", c.nome), ("telefone", c.telefone), ("pacote", c.pacote),
   ("valor", c.valor_fmt), ("vencimento", format_ddmmyyyy c.vencimento),
   ("servidor", c.servidor),
   ("empresa", cfg.empresa), ("suporte", cfg.suporte),
   ("pix_chave", cfg.pix_chave), ("pix_banco", cfg.pix_banco),
   ("pix_titular", cfg.pix_titular),
   ("dias_restantes", toString (dias_restantes c.vencimento.toDays hoje)),
   ("novo_vencimento", format_ddmmyyyy (c.vencimento.addDays 30))]

/-- Render cascade of `enviar_template_cliente` (lines 1552–1604): format
with the full dictionary; on `KeyError` retry with the basic six; on any
remaining failure fall back to the template's raw content. -/
def aplicar_template (conteudo : List Chunk) (c : ClienteRender)
    (cfg : Configs) (hoje : PyDateTime) : String :=
  match pyFormat (dados_template c cfg hoje) conteudo with
  | some m => m
  | none =>
      match pyFormat (dados_basicos c) conteudo with
      | some m => m
      | none => conteudo_raw conteudo

/-- The hardcoded substitute message `enviar_cobranca_cliente` falls back
to when its `format` call raises (line 1278). -/
def mensagem_padrao_cobranca (c : ClienteRender) : String :=
  "Olá " ++ c.nome ++ "!\n\nSeu plano " ++ c.pacote ++ " vence em " ++
    format_ddmmyyyy c.vencimento ++ ".\nValor: R$ " ++ c.valor_fmt ++
    "\nServidor: " ++ c.servidor ++
    "\n\nRenove para continuar usando nossos serviços."

/-- Render step of `enviar_cobranca_cliente` (lines 1265–1278): format the
selected template with the six basic keys; on any exception use the
hardcoded default message — not the template's own content. -/
def aplicar_template_cobranca (template_usar : List Chunk)
    (c : ClienteRender) : String :=
  match pyFormat (dados_basicos c) template_usar with
  | some m => m
  | none => mensagem_padrao_cobranca c

/-- The fixed placeholder vocabulary of `enviar_template_cliente`: the
keys of `dados_template`. -/
def vocabulario_template : List String :=
  ["nome", "telefone", "pacote", "valor", "vencimento", "servidor",
   "empresa", "suporte", "pix_chave", "pix_banco", "pix_titular",
   "dias_restantes", "novo_vencimento"]

/-! ### Text primitives

Python string builtins, embedded over `List Char` (Lean's own `String`
library functions do not reduce inside the kernel, so the embedding works
on character lists and converts literals with `String.toList`). -/

/-- Python `s.split(sep)` for a single-character separator
(`"".split(sep) = [""]`, empty pieces preserved). -/
def pySplit (sep : Char) : List Char → List (List Char)
  | [] => [[]]
  | c :: rest =>
    let r := pySplit sep rest
    if c = sep then [] :: r
    else
      match r with
      | g :: gs => (c :: g) :: gs
      | [] => [[c]]

/-- Python `s.strip()`: remove leading and trailing whitespace. -/
def pyStrip (l : List Char) : List Char :=
  ((l.dropWhile Char.isWhitespace).reverse.dropWhile Char.isWhitespace).reverse

/-- Numeric value of a digit string (most significant first). -/
def digitsVal (l : List Char) : Nat :=
  l.foldl (fun n c => 10 * n + (c.toNat - 48)) 0

/-- Whether `l` is nonempty and all decimal digits (Python `str.isdigit`
restricted to the ASCII input the bot manipulates). -/
def allDigits (l : List Char) : Bool :=
  !l.isEmpty && l.all Char.isDigit

/-- Python `int(s)` on plain decimal literals: optional surrounding
whitespace, optional sign, digits. -/
def pyInt (l : List Char) : Option Int :=
  let l' := pyStrip l
  match l' with
  | '-' :: rest =>
      if allDigits rest then some (-(digitsVal rest : Int)) else none
  | '+' :: rest =>
      if allDigits rest then some (digitsVal rest : Int) else none
  | _ => if allDigits l' then some (digitsVal l' : Int) else none

/-- Python `float(s)` on unsigned plain decimal literals (digits with at
most one `.`, at least one digit; scientific notation and the special
values lie outside the inputs the bot manipulates), as an exact
rational. -/
def parseUnsignedFloat (l : List Char) : Option Rat :=
  match pySplit '.' l with
  | [ip] => if allDigits ip then some (mkRat (digitsVal ip) 1) else none
  | [ip, fp] =>
      if !(ip.isEmpty && fp.isEmpty) && ip.all Char.isDigit &&
          fp.all Char.isDigit then
        some (mkRat (digitsVal (ip ++ fp)) (10 ^ fp.length))
      else none
  | _ => none

/-- Python `float(s)` with the sign handled. -/
def parse_float (l : List Char) : Option Rat :=
  match l with
  | '-' :: rest => (parseUnsignedFloat rest).map (fun r => -r)
  | '+' :: rest => parseUnsignedFloat rest
  | _ => parseUnsignedFloat l

/-- `datetime.strptime(s, '%Y-%m-%d')`: three dash-separated digit groups
(year up to four digits, month and day up to two), with the calendar
validity check `strptime` performs; any other shape raises `ValueError`
(`none`). -/
def parse_iso_date (l : List Char) : Option Date :=
  match pySplit '-' l with
  | [ys, ms, ds] =>
      if allDigits ys && ys.length ≤ 4 && allDigits ms && ms.length ≤ 2 &&
          allDigits ds && ds.length ≤ 2 then
        let dt : Date := ⟨digitsVal ys, digitsVal ms, digitsVal ds⟩
        if dt.validDate then some dt else none
      else none
  | _ => none

/-- `strftime('%Y-%m-%d')` of a date, as characters. -/
def dateToIsoChars (d : Date) : List Char :=
  (pad4 d.year ++ "-" ++ pad2 d.month ++ "-" ++ pad2 d.day).toList

/-- Whether `needle` occurs inside `hay` (Python `needle in hay`). -/
def containsSub (needle hay : List Char) : Bool :=
  hay.tails.any (fun t => needle.isPrefixOf t)

/-- Python `s.replace('R$', '')`: drop every occurrence of `R$`. -/
def removeRS : List Char → List Char
  | [] => []
  | 'R' :: '$' :: rest => removeRS rest
  | c :: rest => c :: removeRS rest

/-- Python `s.replace('/add ', '')`: drop every occurrence of `/add `. -/
def remove_add_cmd : List Char → List Char
  | [] => []
  | '/' :: 'a' :: 'd' :: 'd' :: ' ' :: rest => remove_add_cmd rest
  | c :: rest => c :: remove_add_cmd rest

/-- Python `s.zfill(2)` on the unsigned strings the bot feeds it. -/
def zfill2 (l : List Char) : List Char :=
  if l.length < 2 then '0' :: l else l

/-! ### C6/C7/C8 — the client-intake conversation (lines 243–632) and the
`/add` (lines 638–689) and `/editar` (lines 2245–2341) commands -/

/-- The named states of the intake `ConversationHandler`
(wiring at lines 4137–4169). -/
inductive CadastroState where
  | NOME
  | TELEFONE
  | PACOTE
  | VALOR
  | SERVIDOR
  | VENCIMENTO
  | CONFIRMAR
deriving DecidableEq, Repr

/-- `context.user_data` during intake: the collected fields, all absent
initially.  `vencimento` holds the ISO date string stored at line 504;
`vencimento_auto` the auto-computed date of line 358. -/
structure UserData where
  nome : Option (List Char)
  telefone : Option (List Char)
  pacote : Option (List Char)
  valor : Option Rat
  servidor : Option (List Char)
  vencimento : Option (List Char)
  vencimento_auto : Option (List Char)
deriving DecidableEq, Repr

/-- A cleared `context.user_data`. -/
def UserData.empty : UserData := ⟨none, none, none, none, none, none, none⟩

/-- The argument tuple of a `db.adicionar_cliente` call — the record the
repository is asked to create. -/
structure SavedCliente where
  nome : List Char
  telefone : List Char
  pacote : List Char
  valor : Rat
  vencimento : List Char
  servidor : List Char
deriving DecidableEq, Repr

/-- Where a handler leaves the conversation: a named state, or
`ConversationHandler.END`. -/
inductive StepNext where
  | state (s : CadastroState)
  | fim
deriving DecidableEq, Repr

/-- Everything observable about one handler invocation: the resulting
`user_data`, the next conversation state, and the repository create the
handler performed, if any. -/
structure StepResult where
  dados : UserData
  next : StepNext
  salvo : Option SavedCliente
deriving DecidableEq, Repr

/-- `cancelar_cadastro` (lines 627–632): clear all partial data and end
the conversation; nothing is persisted. -/
def cancelar_cadastro : StepResult :=
  ⟨UserData.empty, .fim, none⟩

/-- `receber_nome` (lines 255–275). -/
def receber_nome (ud : UserData) (texto : List Char) : StepResult :=
  if texto = "❌ Cancelar".toList then cancelar_cadastro
  else
    let nome := pyStrip texto
    if nome.length < 2 then ⟨ud, .state .NOME, none⟩
    else ⟨{ ud with nome := some nome }, .state .TELEFONE, none⟩

/-- `receber_telefone` (lines 278–300): strip, drop spaces/dashes/parens,
require a digit string of length ≥ 10. -/
def receber_telefone (ud : UserData) (texto : List Char) : StepResult :=
  if texto = "❌ Cancelar".toList then cancelar_cadastro
  else
    let telefone := (pyStrip texto).filter
      (fun c => !(c = ' ' || c = '-' || c = '(' || c = ')'))
    if !allDigits telefone || telefone.length < 10 then
      ⟨ud, .state .TELEFONE, none⟩
    else ⟨{ ud with telefone := some telefone }, .state .PACOTE, none⟩

/-- Cycle length the package name selects for the automatic due date
(lines 341–355): 30/90/180/365 days by substring test, default 30. -/
def duracao_pacote (pacote : List Char) : Nat :=
  if containsSub "1 mês".toList pacote then 30
  else if containsSub "3 meses".toList pacote then 90
  else if containsSub "6 meses".toList pacote then 180
  else if containsSub "1 ano".toList pacote then 365
  else 30

/-- `receber_pacote` (lines 303–366): preset buttons, a custom-name
prompt, or a directly typed name; computes `vencimento_auto` from the
package's duration. -/
def receber_pacote (ud : UserData) (now : PyDateTime) (texto : List Char) :
    StepResult :=
  if texto = "❌ Cancelar".toList then cancelar_cadastro
  else
    let texto' := pyStrip texto
    if texto' = "✏️ Personalizado".toList then ⟨ud, .state .PACOTE, none⟩
    else
      let pacote : Option (List Char) :=
        if texto' = "📅 1 mês".toList then some "Plano 1 mês".toList
        else if texto' = "📅 3 meses".toList then some "Plano 3 meses".toList
        else if texto' = "📅 6 meses".toList then some "Plano 6 meses".toList
        else if texto' = "📅 1 ano".toList then some "Plano 1 ano".toList
        else if texto'.length < 2 then none
        else some texto'
      match pacote with
      | none => ⟨ud, .state .PACOTE, none⟩
      | some p =>
          let auto := dateToIsoChars
            (civilFromDays (now.day + (duracao_pacote p : Int)))
          ⟨{ ud with pacote := some p, vencimento_auto := some auto },
            .state .VALOR, none⟩

/-- The preset value buttons of `receber_valor` (elif chain,
lines 377–394). -/
def valores_predefinidos : List (List Char × Rat) :=
  [("💰 R$ 30,00".toList, mkRat 30 1), ("💰 R$ 35,00".toList, mkRat 35 1),
   ("💰 R$ 40,00".toList, mkRat 40 1), ("💰 R$ 45,00".toList, mkRat 45 1),
   ("💰 R$ 50,00".toList, mkRat 50 1), ("💰 R$ 60,00".toList, mkRat 60 1),
   ("💰 R$ 70,00".toList, mkRat 70 1), ("💰 R$ 90,00".toList, mkRat 90 1),
   ("💰 R$ 135,00".toList, mkRat 135 1)]

/-- `receber_valor` (lines 369–424): preset buttons, a custom-value
prompt, or a typed value parsed by
`float(texto.replace(',', '.').replace('R$', '').replace(' ', ''))`,
rejected (re-prompt) unless strictly positive. -/
def receber_valor (ud : UserData) (texto : List Char) : StepResult :=
  if texto = "❌ Cancelar".toList then cancelar_cadastro
  else
    let texto' := pyStrip texto
    match valores_predefinidos.find? (fun p => p.1 = texto') with
    | some p => ⟨{ ud with valor := some p.2 }, .state .SERVIDOR, none⟩
    | none =>
        if texto' = "✏️ Valor personalizado".toList then
          ⟨ud, .state .VALOR, none⟩
        else
          let valor_str := (removeRS (texto'.map
            (fun c => if c = ',' then '.' else c))).filter (fun c => c ≠ ' ')
          match parse_float valor_str with
          | some v =>
              if v ≤ 0 then ⟨ud, .state .VALOR, none⟩
              else ⟨{ ud with valor := some v }, .state .SERVIDOR, none⟩
          | none => ⟨ud, .state .VALOR, none⟩

/-- `receber_servidor` (lines 427–461). -/
def receber_servidor (ud : UserData) (texto : List Char) : StepResult :=
  if texto = "❌ Cancelar".toList then cancelar_cadastro
  else
    let servidor := pyStrip texto
    if servidor.length < 2 then ⟨ud, .state .SERVIDOR, none⟩
    else ⟨{ ud with servidor := some servidor }, .state .VENCIMENTO, none⟩

/-- `receber_vencimento` (lines 464–525): the auto-date button, the
custom-date prompt, or a manually typed date parsed with
`strptime('%Y-%m-%d')` and rejected when in the past.  A `DD/MM/YYYY`
input lands in the manual branch and fails the parse. -/
def receber_vencimento (ud : UserData) (now : PyDateTime)
    (texto : List Char) : StepResult :=
  if texto = "❌ Cancelar".toList then cancelar_cadastro
  else
    let texto' := pyStrip texto
    if texto' = "✅ Usar data automática".toList then
      match ud.vencimento_auto with
      | none => ⟨ud, .state .VENCIMENTO, none⟩
      | some s => ⟨{ ud with vencimento := some s }, .state .CONFIRMAR, none⟩
    else if texto' = "📅 Data personalizada".toList then
      ⟨ud, .state .VENCIMENTO, none⟩
    else
      match parse_iso_date texto' with
      | none => ⟨ud, .state .VENCIMENTO, none⟩
      | some d =>
          if d.toDays * 86400 < now.secs then ⟨ud, .state .VENCIMENTO, none⟩
          else ⟨{ ud with vencimento := some texto' }, .state .CONFIRMAR, none⟩

/-- `confirmar_cadastro` (lines 528–624): Confirm invokes the repository
create with the six collected fields and ends the conversation (a missing
field raises `KeyError`, caught at line 580 — still no create, data
cleared, conversation ended); Edit re-prompts; a digit 1–6 jumps back to
that field's state; anything else re-prompts. -/
def confirmar_cadastro (ud : UserData) (texto : List Char) : StepResult :=
  if texto = "❌ Cancelar".toList then cancelar_cadastro
  else if texto = "✏️ Editar".toList then ⟨ud, .state .CONFIRMAR, none⟩
  else if texto = "✅ Confirmar".toList then
    match ud.nome, ud.telefone, ud.pacote, ud.valor, ud.vencimento,
        ud.servidor with
    | some n, some t, some p, some v, some ve, some s =>
        ⟨UserData.empty, .fim, some ⟨n, t, p, v, ve, s⟩⟩
    | _, _, _, _, _, _ => ⟨UserData.empty, .fim, none⟩
  else
    match pyInt texto with
    | some 1 => ⟨ud, .state .NOME, none⟩
    | some 2 => ⟨ud, .state .TELEFONE, none⟩
    | some 3 => ⟨ud, .state .PACOTE, none⟩
    | some 4 => ⟨ud, .state .VALOR, none⟩
    | some 5 => ⟨ud, .state .SERVIDOR, none⟩
    | some 6 => ⟨ud, .state .VENCIMENTO, none⟩
    | _ => ⟨ud, .state .CONFIRMAR, none⟩

/-- One step of the intake conversation: the state's registered handler
applied to the incoming text (wiring at lines 4142–4165; the
`❌ Cancelar` fallback of line 4167 is the same check each handler
performs first). -/
def cadastro_step (s : CadastroState) (ud : UserData) (now : PyDateTime)
    (texto : List Char) : StepResult :=
  match s with
  | .NOME => receber_nome ud texto
  | .TELEFONE => receber_telefone ud texto
  | .PACOTE => receber_pacote ud now texto
  | .VALOR => receber_valor ud texto
  | .SERVIDOR => receber_servidor ud texto
  | .VENCIMENTO => receber_vencimento ud now texto
  | .CONFIRMAR => confirmar_cadastro ud texto

/-- `/add` command, `add_cliente` (lines 638–689): six `|`-separated
fields; `float(valor_str)` with no sign check; the date must be ISO; on
success the repository create is invoked with the parsed value. -/
def add_cliente (texto : List Char) : Option SavedCliente :=
  let partes := (pySplit '|' (remove_add_cmd texto)).map pyStrip
  match partes with
  | [nome, telefone, pacote, valor_str, vencimento, servidor] =>
      match parse_float valor_str with
      | none => none
      | some valor =>
          match parse_iso_date vencimento with
          | none => none
          | some _ =>
              some ⟨nome, telefone, pacote, valor, vencimento, servidor⟩
  | _ => none

/-- `/editar` vencimento branch (lines 2302–2312): a value containing `/`
is reordered from `DD/MM/YYYY` into `YYYY-MM-DD` (no calendar
validation); a value without `/` is stored verbatim; a slash value that
does not split into three parts raises and is rejected. -/
def editar_vencimento_convert (novo_valor : List Char) :
    Option (List Char) :=
  if novo_valor.contains '/' then
    match pySplit '/' novo_valor with
    | [dia, mes, ano] =>
        some (ano ++ '-' :: zfill2 mes ++ '-' :: zfill2 dia)
    | _ => none
  else some novo_valor

/-- The price invariant on in-flight intake data: any collected `valor` is
strictly positive. -/
def UserData.valorPos (ud : UserData) : Prop :=
  ∀ v, ud.valor = some v → 0 < v

/-! ### C9 — the uninitialized `templates_personalizados` global
(`mostrar_template` lines 3618–3623, `testar_template` lines 3661–3678,
`processar_edicao_template` lines 3812–3823) -/

/-- A value of the in-memory custom-templates dictionary, with the fields
the source accesses (`titulo`, `conteudo`, `criado_em`). -/
structure TemplateInfo where
  titulo : String
  conteudo : List Chunk
  criado_em : String
deriving DecidableEq, Repr

/-- The module-level name `templates_personalizados` is read at
lines 3621–3622, 3674–3675 and 3814–3819 of src/bot.py but no assignment
to it exists anywhere in the module, so evaluating it raises `NameError`;
`none` stands for "name not bound". -/
def templates_personalizados : Option (List (String × TemplateInfo)) := none

/-- The sample-data dictionary of `testar_template` (lines 3681–3688). -/
def dados_exemplo : List (String × String) :=
  [("nome", "João Silva"), ("telefone", "11999999999"),
   ("pacote", "Premium"), ("valor", "29.90"),
   ("vencimento", "15/08/2025"), ("servidor", "BR-SP-01")]

/-- The `boas_vindas` default template content (line 3666), parsed into
chunks. -/
def template_boas_vindas : List Chunk :=
  [.lit "Olá ", .ph "nome",
   .lit "! 👋\n\nSeja bem-vindo ao nosso serviço!\n\n📦 Seu pacote: ",
   .ph "pacote", .lit "\n💰 Valor: R$ ", .ph "valor",
   .lit "\n📅 Vencimento: ", .ph "vencimento",
   .lit "\n\nQualquer dúvida, estamos aqui para ajudar!"]

/-- The `cobranca` default template content (line 3667), parsed into
chunks. -/
def template_cobranca_padrao : List Chunk :=
  [.lit "⚠️ ATENÇÃO ", .ph "nome",
   .lit "!\n\nSeu plano vence em breve:\n\n📦 Pacote: ", .ph "pacote",
   .lit "\n💰 Valor: R$ ", .ph "valor", .lit "\n📅 Vencimento: ",
   .ph "vencimento", .lit "\n\nRenove agora para não perder o acesso!"]

/-- The `vencido` default template content (line 3668), parsed into
chunks. -/
def template_vencido_padrao : List Chunk :=
  [.lit "🔴 PLANO VENCIDO - ", .ph "nome",
   .lit "\n\nSeu plano venceu em ", .ph "vencimento",
   .lit ".\n\n📦 Pacote: ", .ph "pacote",
   .lit "\n💰 Valor para renovação: R$ ", .ph "valor",
   .lit "\n\nRenove urgentemente para reativar o serviço!"]

/-- The `templates_padrao` dictionary of `testar_template`
(lines 3665–3669). -/
def templates_padrao_testar : List (String × List Chunk) :=
  [("boas_vindas", template_boas_vindas),
   ("cobranca", template_cobranca_padrao),
   ("vencido", template_vencido_padrao)]

/-- Outcome of `testar_template`: the rendered preview, the
"não encontrado" reply, or the outer `except` reply ("Erro ao testar
template!") that catches any exception, `NameError` included. -/
inductive TestarOutcome where
  | teste (mensagem_teste : String)
  | naoEncontrado
  | erroInterno
deriving DecidableEq, Repr

/-- `testar_template` (lines 3661–3719): a default template is rendered
with the sample data; any other name evaluates the unbound
`templates_personalizados` (line 3674), raising `NameError`, which the
`except` at line 3717 turns into the error reply. -/
def testar_template (nome_template : String) : TestarOutcome :=
  match templates_padrao_testar.find? (fun p => p.1 == nome_template) with
  | some p =>
      match pyFormat dados_exemplo p.2 with
      | some m => .teste m
      | none => .erroInterno
  | none =>
      match templates_personalizados with
      | none => .erroInterno
      | some tps =>
          match tps.find? (fun t => t.1 == nome_template) with
          | some t =>
              match pyFormat dados_exemplo t.2.conteudo with
              | some m => .teste m
              | none => .erroInterno
          | none => .naoEncontrado

/-- Outcome of the template-name dispatch of `processar_edicao_template`:
the default-template branch, the custom-template branch, the
"não encontrado" reply, or the outer `except` reply ("Erro ao processar
edição do template!"). -/
inductive EdicaoOutcome where
  | padraoEditado
  | personalizadoEditado
  | naoEncontrado
  | erroInterno
deriving DecidableEq, Repr

/-- `processar_edicao_template`, name dispatch (lines 3801–3829): a name
outside the three defaults evaluates the unbound
`templates_personalizados` (line 3814), raising `NameError`, which the
`except` at line 3888 turns into the error reply. -/
def processar_edicao_template (nome_template : String) : EdicaoOutcome :=
  if nome_template ∈ (["boas_vindas", "cobranca", "vencido"] : List String)
  then .padraoEditado
  else
    match templates_personalizados with
    | none => .erroInterno
    | some tps =>
        if (tps.find? (fun t => t.1 == nome_template)).isSome then
          .personalizadoEditado
        else .naoEncontrado

/-! ### C10 — the `verificar_admin` decorator (lines 192–203) -/

/-- The fields of an incoming update the decorator reads. -/
structure Update where
  chat_id : Int
  text : String

/-- Observable outcome of running a handler: the replies sent and the
resulting bot state. -/
structure HandlerOutcome (σ : Type) where
  replies : List String
  estado : σ

/-- The `verificar_admin` decorator: if the update's chat id differs from
`ADMIN_CHAT_ID`, reply "Acesso negado" and return without invoking the
wrapped handler; otherwise run it. -/
def verificar_admin {σ : Type} (admin_id : Int)
    (func : Update → σ → HandlerOutcome σ) (u : Update) (st : σ) :
    HandlerOutcome σ :=
  if u.chat_id ≠ admin_id then
    ⟨["❌ Acesso negado. Apenas o admin pode usar este bot."], st⟩
  else func u st

/-! ## Helper lemmas -/

/-- Floor division `(a * 86400 + b).fdiv 86400` with `0 ≤ b < 86400`
recovers `a` (a `datetime`'s date component is its day). -/
theorem fdiv_day_split (a : Int) (b : Nat) (hb : b < 86400) :
    Int.fdiv (a * 86400 + (b : Int)) 86400 = a := by
  rw [Int.fdiv_eq_ediv _ (by norm_num)]
  omega

theorem dados_template_keys (c : ClienteRender) (cfg : Configs)
    (hoje : PyDateTime) :
    (dados_template c cfg hoje).map Prod.fst = vocabulario_template := rfl

theorem dados_basicos_keys (c : ClienteRender) :
    (dados_basicos c).map Prod.fst =
      ["nome", "telefone", "pacote", "valor", "vencimento", "servidor"] := rfl

/-- A key absent from an environment's key list is not found. -/
theorem find_env_eq_none (env : List (String × String)) (n : String)
    (hn : n ∉ env.map Prod.fst) :
    env.find? (fun p => p.1 == n) = none := by
  induction env with
  | nil => rfl
  | cons p rest ih =>
    simp only [List.map_cons, List.mem_cons] at hn
    push_neg at hn
    have hne : (p.1 == n) = false := by
      simpa [beq_eq_false_iff_ne] using (hn.1 ∘ Eq.symm)
    simp [List.find?, hne, ih hn.2]

/-- `str.format` raises (`none`) as soon as some placeholder of the
template is outside the environment's keys — all-or-nothing. -/
theorem pyFormat_none_of_unknown (env : List (String × String)) (n : String)
    (hn : n ∉ env.map Prod.fst) :
    ∀ conteudo : List Chunk, Chunk.ph n ∈ conteudo →
      pyFormat env conteudo = none := by
  intro conteudo hmem
  induction conteudo with
  | nil => cases hmem
  | cons ch rest ih =>
    cases ch with
    | lit s =>
      have hr : Chunk.ph n ∈ rest := by
        rcases List.mem_cons.mp hmem with h | h
        · cases h
        · exact h
      simp [pyFormat, ih hr]
    | ph m =>
      rcases List.mem_cons.mp hmem with h | h
      · cases h
        simp [pyFormat, find_env_eq_none env n hn]
      · cases hfind : env.find? (fun p => p.1 == m) <;>
          simp [pyFormat, hfind, ih h]

theorem receber_nome_salvo (ud : UserData) (texto : List Char) :
    (receber_nome ud texto).salvo = none := by
  simp only [receber_nome, cancelar_cadastro]
  repeat' split
  all_goals rfl

theorem receber_telefone_salvo (ud : UserData) (texto : List Char) :
    (receber_telefone ud texto).salvo = none := by
  simp only [receber_telefone, cancelar_cadastro]
  repeat' split
  all_goals rfl

theorem receber_pacote_salvo (ud : UserData) (now : PyDateTime)
    (texto : List Char) :
    (receber_pacote ud now texto).salvo = none := by
  simp only [receber_pacote, cancelar_cadastro]
  repeat' split
  all_goals rfl

theorem receber_valor_salvo (ud : UserData) (texto : List Char) :
    (receber_valor ud texto).salvo = none := by
  simp only [receber_valor, cancelar_cadastro]
  repeat' split
  all_goals rfl

theorem receber_servidor_salvo (ud : UserData) (texto : List Char) :
    (receber_servidor ud texto).salvo = none := by
  simp only [receber_servidor, cancelar_cadastro]
  repeat' split
  all_goals rfl

theorem receber_vencimento_salvo (ud : UserData) (now : PyDateTime)
    (texto : List Char) :
    (receber_vencimento ud now texto).salvo = none := by
  simp only [receber_vencimento, cancelar_cadastro]
  repeat' split
  all_goals rfl

/-- The only way `confirmar_cadastro` performs a repository create is the
explicit Confirm input with all six fields collected, and the created
record carries exactly those fields. -/
theorem confirmar_salvo (ud : UserData) (texto : List Char)
    (rec : SavedCliente)
    (h : (confirmar_cadastro ud texto).salvo = some rec) :
    texto = "✅ Confirmar".toList ∧ ud.nome = some rec.nome ∧
    ud.telefone = some rec.telefone ∧ ud.pacote = some rec.pacote ∧
    ud.valor = some rec.valor ∧ ud.vencimento = some rec.vencimento ∧
    ud.servidor = some rec.servidor := by
  unfold confirmar_cadastro cancelar_cadastro at h
  split_ifs at h with h1 h2 h3
  · rcases hn : ud.nome with _ | n <;> rcases ht : ud.telefone with _ | t <;>
      rcases hp : ud.pacote with _ | p <;> rcases hv : ud.valor with _ | v <;>
      rcases hve : ud.vencimento with _ | ve <;>
      rcases hs : ud.servidor with _ | s <;>
      rw [hn, ht, hp, hv, hve, hs] at h <;> (try dsimp only at h) <;>
      first
        | exact Option.noConfusion h
        | (injection h with h'; subst h';
           exact ⟨h3, rfl, rfl, rfl, rfl, rfl, rfl⟩)
  · split at h <;> exact Option.noConfusion h

theorem valores_predefinidos_pos : ∀ p ∈ valores_predefinidos, 0 < p.2 := by
  decide

/-- After any intake step the collected `valor` is unchanged, cleared, or
a freshly validated strictly positive value. -/
theorem cadastro_step_valor (s : CadastroState) (ud : UserData)
    (now : PyDateTime) (texto : List Char) :
    (cadastro_step s ud now texto).dados.valor = ud.valor ∨
    (cadastro_step s ud now texto).dados.valor = none ∨
    ∃ v, (cadastro_step s ud now texto).dados.valor = some v ∧ 0 < v := by
  cases s
  case VALOR =>
    simp only [cadastro_step, receber_valor, cancelar_cadastro,
      UserData.empty]
    split
    · right; left; rfl
    · split
      case h_1 p heq =>
        right; right
        exact ⟨p.2, rfl,
          valores_predefinidos_pos p (List.mem_of_find?_eq_some heq)⟩
      case h_2 heq =>
        split
        · left; rfl
        · split
          case h_1 v hparse =>
            split
            case isTrue => left; rfl
            case isFalse hle => right; right; exact ⟨v, rfl, lt_of_not_le hle⟩
          case h_2 => left; rfl
  all_goals (
    simp only [cadastro_step, receber_nome, receber_telefone, receber_pacote,
      receber_servidor, receber_vencimento, confirmar_cadastro,
      cancelar_cadastro, UserData.empty]
    repeat' split)
  all_goals first | (left; rfl) | (right; left; rfl)

/-! ## Claims -/

/-- C1: Same-cycle renewal writes `base + N` days where `base` is the
current due date when it is not yet past today, and today otherwise — at
date granularity the due date `processar_renovacao_cliente` stores is
`max(due_date, today) + dias`. -/
theorem renovacao_same_cycle (venc_day : Int) (now : PyDateTime)
    (dias : Int) (h : now.sec < 86400) :
    processar_renovacao_nova_data venc_day now dias =
      (if now.day ≤ venc_day then venc_day else now.day) + dias := by
  simp only [processar_renovacao_nova_data, PyDateTime.secs]
  split
  case isTrue hlt =>
    rw [show now.day * 86400 + (now.sec : Int) + dias * 86400
          = (now.day + dias) * 86400 + (now.sec : Int) by ring,
        fdiv_day_split _ _ h]
    split <;> omega
  case isFalse hge =>
    rw [show venc_day * 86400 + dias * 86400
          = (venc_day + dias) * 86400 + ((0 : Nat) : Int) by push_cast; ring,
        fdiv_day_split _ _ (by norm_num)]
    split <;> omega

/-- Witness for C1, at the spec's own overdue example: a client due
2025-01-01 renewed for 30 days on 2025-01-20 (at 09:00) gets due date
2025-02-19, not 2025-01-31. -/
theorem renovacao_same_cycle_witness :
    (32400 : Nat) < 86400 ∧
    processar_renovacao_nova_data (daysFromCivil 2025 1 1)
      ⟨daysFromCivil 2025 1 20, 32400⟩ 30 = daysFromCivil 2025 2 19 := by
  refine ⟨by decide, ?_⟩
  rw [renovacao_same_cycle _ _ _ (by decide)]
  decide

/-- C2: every dispatch is bounded by the 15-second timeout and its outcome
is classified into the delivery log — `timeout` (distinct from `falha`)
when the bound elapses, `falha` on reported non-delivery, `erro` on any
other exception — with a log row written (whenever the guarded log write
itself succeeds) and the handler completing instead of propagating, in
both `enviar_cobranca_cliente` and `enviar_template_cliente`. -/
theorem envio_classificacao (cliente_id : Nat)
    (tipo nome telefone msg : String) (tid : Nat)
    (transporte : TransportOutcome) (log_ok : Bool) :
    envio_timeout_segundos = 15 ∧
    (enviar_cobranca_envio cliente_id tipo telefone msg transporte
      log_ok).completed = true ∧
    (enviar_template_envio cliente_id nome tid telefone msg transporte
      log_ok).completed = true ∧
    (log_ok = true →
      (enviar_cobranca_envio cliente_id tipo telefone msg transporte
          log_ok).log.map (·.status) = some (classificar_envio transporte) ∧
      (enviar_template_envio cliente_id nome tid telefone msg transporte
          log_ok).log.map (·.status) = some (classificar_envio transporte)) ∧
    classificar_envio .timedOut = .timeout ∧
    LogStatus.timeout ≠ LogStatus.falha := by
  cases transporte <;> cases log_ok <;>
    simp [enviar_cobranca_envio, enviar_template_envio, classificar_envio,
      envio_timeout_segundos]

/-- Witness for C2: a concrete timed-out dispatch is logged as `timeout`
and the handler completes. -/
theorem envio_classificacao_witness :
    (enviar_cobranca_envio 7 "cobrança" "11999999999" "Olá"
      .timedOut true).log.map (·.status) = some LogStatus.timeout ∧
    (enviar_template_envio 7 "promo" 2 "11999999999" "Olá"
      .timedOut true).completed = true := by
  have h := envio_classificacao 7 "cobrança" "promo" "11999999999" "Olá" 2
    .timedOut true
  exact ⟨(h.2.2.2.1 rfl).1, h.2.2.1⟩

/-- C3 (counterexample): in `enviar_cobranca_cliente`, rendering the
template `"Hi \x7bunknown_field\x7d"` against a valid client does not
yield the literal template content — it yields the hardcoded default
message instead, so the dispatched text is a different replacement
text. -/
theorem render_cobranca_counterexample :
    aplicar_template_cobranca [.lit "Hi ", .ph "unknown_field"]
        ⟨"Ana", "11999999999", "Plano 1 mês", "50.00", ⟨2025, 3, 15⟩, "S1"⟩ ≠
      conteudo_raw [.lit "Hi ", .ph "unknown_field"] ∧
    aplicar_template_cobranca [.lit "Hi ", .ph "unknown_field"]
        ⟨"Ana", "11999999999", "Plano 1 mês", "50.00", ⟨2025, 3, 15⟩, "S1"⟩ =
      mensagem_padrao_cobranca
        ⟨"Ana", "11999999999", "Plano 1 mês", "50.00",
          ⟨2025, 3, 15⟩, "S1"⟩ := by
  decide

/-- C3 (amended): rendering never raises past the render boundary and is
all-or-nothing, but the two callers fall back differently: for a template
referencing a placeholder outside the fixed vocabulary,
`enviar_template_cliente` dispatches the literal unsubstituted content,
while `enviar_cobranca_cliente` dispatches its fixed default message
instead of the literal content. -/
theorem render_fallback (conteudo : List Chunk) (c : ClienteRender)
    (cfg : Configs) (hoje : PyDateTime) (n : String)
    (hmem : Chunk.ph n ∈ conteudo) (hn : n ∉ vocabulario_template) :
    aplicar_template conteudo c cfg hoje = conteudo_raw conteudo ∧
    aplicar_template_cobranca conteudo c = mensagem_padrao_cobranca c := by
  have hfull : pyFormat (dados_template c cfg hoje) conteudo = none := by
    refine pyFormat_none_of_unknown _ n ?_ conteudo hmem
    rw [dados_template_keys]
    exact hn
  have hbasic : pyFormat (dados_basicos c) conteudo = none := by
    refine pyFormat_none_of_unknown _ n ?_ conteudo hmem
    rw [dados_basicos_keys]
    simp only [vocabulario_template, List.mem_cons, List.not_mem_nil] at hn ⊢
    tauto
  constructor
  · simp [aplicar_template, hfull, hbasic]
  · simp [aplicar_template_cobranca, hbasic]

/-- Witness for C3 (amended): the template `"Hi \x7bunknown_field\x7d"`
rendered by `enviar_template_cliente` against a concrete client comes out
literally unchanged. -/
theorem render_fallback_witness :
    aplicar_template [.lit "Hi ", .ph "unknown_field"]
      ⟨"Ana", "11999999999", "Plano 1 mês", "50.00", ⟨2025, 3, 15⟩, "S1"⟩
      ⟨"Empresa", "@suporte", "pix@x.com", "BB", "Titular"⟩
      ⟨daysFromCivil 2025 3 1, 0⟩ = "Hi \x7bunknown_field\x7d" := by
  have h := render_fallback [.lit "Hi ", .ph "unknown_field"]
    ⟨"Ana", "11999999999", "Plano 1 mês", "50.00", ⟨2025, 3, 15⟩, "S1"⟩
    ⟨"Empresa", "@suporte", "pix@x.com", "BB", "Titular"⟩
    ⟨daysFromCivil 2025 3 1, 0⟩ "unknown_field"
    (by decide) (by decide)
  rw [h.1]
  decide

/-- C4 (counterexample): an active client whose due date (2030-01-01) lies
far outside the current month (June 2025) contributes its full price to
the reported monthly revenue, while the claim says such a client
contributes nothing. -/
theorem receita_total_counterexample :
    receita_total [⟨"A", "11999999999", "P", 50, ⟨2030, 1, 1⟩, "S"⟩] = 50 ∧
    projected_spec [⟨"A", "11999999999", "P", 50, ⟨2030, 1, 1⟩, "S"⟩]
      ⟨2025, 6, 10⟩ = 0 ∧
    (50 : Rat) ≠ 0 := by
  have hout : inCurrentMonth ⟨2025, 6, 10⟩
      ⟨"A", "11999999999", "P", 50, ⟨2030, 1, 1⟩, "S"⟩ = false := by decide
  refine ⟨?_, ?_, by norm_num⟩
  · simp [receita_total]
  · simp [projected_spec, hout]

/-- C4 (amended): the monthly revenue figure the report operations compute
is the sum of `valor` over ALL active clients: it decomposes as the spec's
month-bounded projected revenue plus the prices of every client due
outside the current month, so out-of-month clients contribute their full
price rather than nothing. -/
theorem receita_total_not_month_bounded (clientes : List Cliente)
    (today : Date) :
    receita_total clientes =
      projected_spec clientes today + fora_do_mes clientes today := by
  induction clientes with
  | nil => simp [receita_total, projected_spec, fora_do_mes]
  | cons c cs ih =>
    simp only [receita_total, projected_spec, fora_do_mes, List.filter,
      List.map] at ih ⊢
    by_cases hc : inCurrentMonth today c
    · simp [hc, List.sum_cons]
      rw [show (cs.map (·.valor)).sum
            = ((cs.filter (inCurrentMonth today)).map (·.valor)).sum +
              ((cs.filter (fun c => !inCurrentMonth today c)).map
                (·.valor)).sum from ih]
      ring
    · simp [hc, List.sum_cons]
      rw [show (cs.map (·.valor)).sum
            = ((cs.filter (inCurrentMonth today)).map (·.valor)).sum +
              ((cs.filter (fun c => !inCurrentMonth today c)).map
                (·.valor)).sum from ih]
      ring

/-- C5 (counterexample): for a client due 2025-01-01 rendered on
2025-01-20, the code substitutes `0` for the days-remaining placeholder,
while the claim requires the signed offset
`(due_date − today).days = -19`. -/
theorem dias_restantes_counterexample :
    dias_restantes (daysFromCivil 2025 1 1)
      ⟨daysFromCivil 2025 1 20, 0⟩ = 0 ∧
    daysFromCivil 2025 1 1 - daysFromCivil 2025 1 20 = -19 ∧
    (0 : Int) ≠ -19 := by
  decide

/-- C5 (amended): the substituted days-remaining value is clamped — it is
`0` whenever the due date is not strictly in the future, and otherwise the
floor of the `datetime` difference (one less than the date offset once the
clock has passed midnight); in particular it is never negative. -/
theorem dias_restantes_clamped (venc_day : Int) (hoje : PyDateTime)
    (h : hoje.sec < 86400) :
    dias_restantes venc_day hoje =
      (if hoje.day < venc_day then
        venc_day - hoje.day - (if 0 < hoje.sec then 1 else 0)
       else 0) ∧
    0 ≤ dias_restantes venc_day hoje := by
  have key : dias_restantes venc_day hoje =
      (if hoje.day < venc_day then
        venc_day - hoje.day - (if 0 < hoje.sec then 1 else 0)
       else 0) := by
    simp only [dias_restantes, PyDateTime.secs]
    split
    case isTrue hlt =>
      rw [Int.fdiv_eq_ediv _ (by norm_num)]
      split <;> [skip; omega]
      split <;> omega
    case isFalse hge =>
      split <;> omega
  refine ⟨key, ?_⟩
  rw [key]
  split <;> [skip; omega]
  split <;> omega

/-- Witness for C5 (amended): rendering on 2025-01-20 at 09:00 for a
client due 2025-02-01 substitutes 11 (the floored datetime
difference). -/
theorem dias_restantes_clamped_witness :
    (32400 : Nat) < 86400 ∧
    dias_restantes (daysFromCivil 2025 2 1)
      ⟨daysFromCivil 2025 1 20, 32400⟩ = 11 := by
  refine ⟨by decide, ?_⟩
  have h := (dias_restantes_clamped (daysFromCivil 2025 2 1)
    ⟨daysFromCivil 2025 1 20, 32400⟩ (by decide)).1
  rw [h]
  decide

/-- C6 (counterexample): the intake date handler re-prompts on the
day-first form `15/03/2025` but accepts the ISO form `2025-03-15` denoting
the same date, so date entry does not accept the two shapes as
equivalent. -/
theorem parse_date_dual_counterexample :
    receber_vencimento UserData.empty ⟨daysFromCivil 2025 1 1, 0⟩
        "15/03/2025".toList = ⟨UserData.empty, .state .VENCIMENTO, none⟩ ∧
    receber_vencimento UserData.empty ⟨daysFromCivil 2025 1 1, 0⟩
        "2025-03-15".toList =
      ⟨{ UserData.empty with vencimento := some "2025-03-15".toList },
        .state .CONFIRMAR, none⟩ ∧
    parse_iso_date "15/03/2025".toList = none := by
  decide

/-- C6 (amended): intake date entry accepts only ISO `YYYY-MM-DD`,
re-prompting on any other shape (`DD/MM/YYYY` included); the `/editar`
command rewrites `DD/MM/YYYY` into ISO, so there the two shapes store the
same value, but it does not reject other shapes — it stores them
verbatim. -/
theorem vencimento_somente_iso (ud : UserData) (now : PyDateTime)
    (texto : List Char)
    (hc : texto ≠ "❌ Cancelar".toList)
    (hb1 : pyStrip texto ≠ "✅ Usar data automática".toList)
    (hb2 : pyStrip texto ≠ "📅 Data personalizada".toList)
    (hparse : parse_iso_date (pyStrip texto) = none) :
    receber_vencimento ud now texto = ⟨ud, .state .VENCIMENTO, none⟩ ∧
    editar_vencimento_convert "15/03/2025".toList =
      some "2025-03-15".toList ∧
    editar_vencimento_convert "2025-03-15".toList =
      some "2025-03-15".toList ∧
    editar_vencimento_convert "qualquer coisa".toList =
      some "qualquer coisa".toList := by
  refine ⟨?_, by decide, by decide, by decide⟩
  simp only [receber_vencimento]
  rw [if_neg hc, if_neg hb1, if_neg hb2, hparse]

/-- Witness for C6 (amended): the day-first input `31/12/2025` is
re-prompted by the intake handler. -/
theorem vencimento_somente_iso_witness :
    receber_vencimento UserData.empty ⟨daysFromCivil 2025 1 1, 0⟩
      "31/12/2025".toList =
      ⟨UserData.empty, .state .VENCIMENTO, none⟩ := by
  exact (vencimento_somente_iso UserData.empty ⟨daysFromCivil 2025 1 1, 0⟩
    "31/12/2025".toList (by decide) (by decide) (by decide) (by decide)).1

/-- C7: from every state of the intake conversation the Cancel input
discards all collected data and ends the conversation with nothing
persisted, and a repository create happens only from the Confirm state on
the explicit Confirm input with all six fields collected. -/
theorem cadastro_cancelamento_uniforme (s : CadastroState) (ud : UserData)
    (now : PyDateTime) :
    cadastro_step s ud now "❌ Cancelar".toList =
      ⟨UserData.empty, .fim, none⟩ ∧
    (∀ texto rec, (cadastro_step s ud now texto).salvo = some rec →
      s = .CONFIRMAR ∧ texto = "✅ Confirmar".toList ∧
      ud.nome = some rec.nome ∧ ud.telefone = some rec.telefone ∧
      ud.pacote = some rec.pacote ∧ ud.valor = some rec.valor ∧
      ud.vencimento = some rec.vencimento ∧
      ud.servidor = some rec.servidor) := by
  constructor
  · cases s <;>
      simp [cadastro_step, receber_nome, receber_telefone, receber_pacote,
        receber_valor, receber_servidor, receber_vencimento,
        confirmar_cadastro, cancelar_cadastro]
  · intro texto rec hsave
    cases s
    case NOME =>
      simp only [cadastro_step, receber_nome_salvo] at hsave
      exact Option.noConfusion hsave
    case TELEFONE =>
      simp only [cadastro_step, receber_telefone_salvo] at hsave
      exact Option.noConfusion hsave
    case PACOTE =>
      simp only [cadastro_step, receber_pacote_salvo] at hsave
      exact Option.noConfusion hsave
    case VALOR =>
      simp only [cadastro_step, receber_valor_salvo] at hsave
      exact Option.noConfusion hsave
    case SERVIDOR =>
      simp only [cadastro_step, receber_servidor_salvo] at hsave
      exact Option.noConfusion hsave
    case VENCIMENTO =>
      simp only [cadastro_step, receber_vencimento_salvo] at hsave
      exact Option.noConfusion hsave
    case CONFIRMAR =>
      exact ⟨rfl, confirmar_salvo ud texto rec hsave⟩

/-- Witness for C7: a concrete mid-conversation Cancel discards the
collected fields, and a concrete Confirm save echoes the collected
value. -/
theorem cadastro_cancelamento_uniforme_witness :
    cadastro_step .VALOR
        ⟨some "Ana".toList, some "11999999999".toList,
          some "Plano 1 mês".toList, none, none, none, none⟩
        ⟨daysFromCivil 2025 1 1, 0⟩ "❌ Cancelar".toList =
      ⟨UserData.empty, .fim, none⟩ ∧
    ((cadastro_step .CONFIRMAR
        ⟨some "Ana".toList, some "11999999999".toList,
          some "Plano 1 mês".toList, some (mkRat 30 1), some "S1".toList,
          some "2025-03-15".toList, none⟩
        ⟨daysFromCivil 2025 1 1, 0⟩ "✅ Confirmar".toList).salvo =
      some ⟨"Ana".toList, "11999999999".toList, "Plano 1 mês".toList,
        mkRat 30 1, "2025-03-15".toList, "S1".toList⟩ →
      (⟨some "Ana".toList, some "11999999999".toList,
          some "Plano 1 mês".toList, some (mkRat 30 1), some "S1".toList,
          some "2025-03-15".toList, none⟩ : UserData).valor =
        some (mkRat 30 1)) := by
  constructor
  · exact (cadastro_cancelamento_uniforme .VALOR
      ⟨some "Ana".toList, some "11999999999".toList,
        some "Plano 1 mês".toList, none, none, none, none⟩
      ⟨daysFromCivil 2025 1 1, 0⟩).1
  · intro hs
    exact ((cadastro_cancelamento_uniforme .CONFIRMAR _
      ⟨daysFromCivil 2025 1 1, 0⟩).2 _ _ hs).2.2.2.2.2.1

/-- C8 (counterexample): the `/add` command performs no sign check on the
price, so `/add Ana | 11999999999 | Plano | -10 | 2025-03-15 | S1` invokes
the repository create with the negative price −10. -/
theorem add_cliente_preco_negativo :
    (add_cliente
        "/add Ana | 11999999999 | Plano | -10 | 2025-03-15 | S1".toList).map
      (·.valor) = some (mkRat (-10) 1) ∧
    mkRat (-10) 1 < 0 := by
  decide

/-- C8 (amended): the guided intake does enforce strict positivity — from
any in-flight data satisfying the invariant, every step preserves it and
any record it saves has `0 < valor`; the `/add` path, by contrast, admits
negative prices (see the counterexample). -/
theorem intake_valor_positivo (s : CadastroState) (ud : UserData)
    (now : PyDateTime) (texto : List Char) (hinv : ud.valorPos) :
    UserData.empty.valorPos ∧
    (cadastro_step s ud now texto).dados.valorPos ∧
    (∀ rec, (cadastro_step s ud now texto).salvo = some rec →
      0 < rec.valor) := by
  refine ⟨fun v hv => Option.noConfusion hv, ?_, ?_⟩
  · rcases cadastro_step_valor s ud now texto with h | h | ⟨v, hv, hpos⟩
    · intro v hv'
      exact hinv v (h ▸ hv')
    · intro v hv'
      rw [h] at hv'
      exact Option.noConfusion hv'
    · intro w hw
      rw [hv] at hw
      injection hw with h'
      exact h' ▸ hpos
  · intro rec hsave
    cases s
    case NOME =>
      simp only [cadastro_step, receber_nome_salvo] at hsave
      exact Option.noConfusion hsave
    case TELEFONE =>
      simp only [cadastro_step, receber_telefone_salvo] at hsave
      exact Option.noConfusion hsave
    case PACOTE =>
      simp only [cadastro_step, receber_pacote_salvo] at hsave
      exact Option.noConfusion hsave
    case VALOR =>
      simp only [cadastro_step, receber_valor_salvo] at hsave
      exact Option.noConfusion hsave
    case SERVIDOR =>
      simp only [cadastro_step, receber_servidor_salvo] at hsave
      exact Option.noConfusion hsave
    case VENCIMENTO =>
      simp only [cadastro_step, receber_vencimento_salvo] at hsave
      exact Option.noConfusion hsave
    case CONFIRMAR =>
      exact hinv rec.valor (confirmar_salvo ud texto rec hsave).2.2.2.2.1

/-- Witness for C8 (amended): one intake step on empty data with the typed
value `25,90` keeps the invariant. -/
theorem intake_valor_positivo_witness :
    UserData.empty.valorPos ∧
    (cadastro_step .VALOR UserData.empty ⟨daysFromCivil 2025 1 1, 0⟩
      "25,90".toList).dados.valorPos := by
  have h := intake_valor_positivo .VALOR UserData.empty
    ⟨daysFromCivil 2025 1 1, 0⟩ "25,90".toList
    (fun v hv => Option.noConfusion hv)
  exact ⟨h.1, h.2.1⟩

/-- C9: the in-memory custom-templates structure is never initialized, so
testing or editing a template name outside the three defaults reaches the
unbound `templates_personalizados` and fails with the undefined-name error
path instead of completing, while default names never hit that path. -/
theorem templates_personalizados_indefinido :
    templates_personalizados = none ∧
    testar_template "promo_natal" = .erroInterno ∧
    processar_edicao_template "promo_natal" = .erroInterno ∧
    testar_template "cobranca" ≠ .erroInterno ∧
    processar_edicao_template "cobranca" ≠ .erroInterno := by
  decide

/-- C10: for any update from a chat other than the admin's, a
`verificar_admin`-wrapped handler only replies with the access-denied
message: the wrapped handler is never invoked, the state is unchanged, and
the outcome is identical for any two non-admin inputs and any two wrapped
handlers. -/
theorem verificar_admin_nao_interferencia {σ : Type} (admin_id : Int)
    (f g : Update → σ → HandlerOutcome σ) (u v : Update) (st : σ)
    (hu : u.chat_id ≠ admin_id) (hv : v.chat_id ≠ admin_id) :
    verificar_admin admin_id f u st = verificar_admin admin_id g v st ∧
    (verificar_admin admin_id f u st).estado = st ∧
    (verificar_admin admin_id f u st).replies =
      ["❌ Acesso negado. Apenas o admin pode usar este bot."] := by
  simp [verificar_admin, hu, hv]

/-- Witness for C10: two different non-admin updates fed to two different
handlers produce the same denied outcome with the state untouched. -/
theorem verificar_admin_nao_interferencia_witness :
    verificar_admin (σ := Nat) 99 (fun _ s => ⟨["oi"], s + 1⟩) ⟨1, "a"⟩ 5 =
      verificar_admin 99 (fun _ s => ⟨[], s * 2⟩) ⟨2, "b"⟩ 5 ∧
    (verificar_admin (σ := Nat) 99 (fun _ s => ⟨["oi"], s + 1⟩)
      ⟨1, "a"⟩ 5).estado = 5 := by
  have h := verificar_admin_nao_interferencia (σ := Nat) 99
    (fun _ s => ⟨["oi"], s + 1⟩) (fun _ s => ⟨[], s * 2⟩)
    ⟨1, "a"⟩ ⟨2, "b"⟩ 5 (by decide) (by decide)
  exact ⟨h.1, h.2.1⟩

end VendasDigitais
